import Mathlib

/-!
Shallow embedding of the NewGen posting service (FastAPI + SQLAlchemy + cachetools).

The embedded code is `src/controllers/post_service.py` (the access orchestrator and
its per-owner post cache), `src/controllers/auth.py` (token issue/verify), and the
thin routers in `src/routers/posts.py`.

Modelling notes.
* A `Post` record carries the three fields of the ORM model `models/post.py` and of
  the response schema `schemas/post.py` (`id`, `text`, `owner_id`). The conversion
  `PostResponse.from_orm` is the identity on those fields, so ORM rows and response
  objects are merged into the single record type.
* The database table of posts is a list together with the auto-increment counter for
  the next primary key (`Store`).
* The module-level `cache = TTLCache(maxsize=100, ttl=300)` is an association list
  from owner id to the cached list of posts. TTL expiry and LRU eviction only drop
  whole entries; the verified claims all concern immediate call sequences, during
  which no entry expires, so time is not threaded through the cache.
* Python's `if cached_posts:` tests *truthiness* of the value retrieved with
  `cache.get(user_id)`: it is true exactly when the entry is present AND non-empty.
  This is embedded precisely as `pyTruthy`, because it is load-bearing: an entry
  holding the empty list behaves like a missing entry.
* Raising `HTTPException` aborts the request with the state as it is; each operation
  therefore returns an `Except` result together with the (possibly unchanged) state.
  List retrieval additionally returns a `Bool` recording whether the database was
  queried, the store-call counter the spec's testable properties refer to.
-/

/-- Record with the fields of the ORM model `Post` (src/models/post.py) and of the
response schema `PostResponse` (src/schemas/post.py): primary key, text content,
and the owning user's id. -/
structure Post where
  id : Nat
  text : String
  owner_id : Nat
deriving DecidableEq, Repr

/-- Database table of posts: the rows plus the auto-increment primary-key counter. -/
structure Store where
  posts : List Post
  nextId : Nat
deriving DecidableEq, Repr

/-- Lookup in the cache association list, embedding `cache.get(user_id)`. -/
def cacheGet : List (Nat × List Post) → Nat → Option (List Post)
  | [], _ => none
  | e :: rest, u => if e.1 = u then some e.2 else cacheGet rest u

/-- Assignment `cache[user_id] = posts`: overwrite the entry if present, otherwise
add one. -/
def cacheSet : List (Nat × List Post) → Nat → List Post → List (Nat × List Post)
  | [], u, ps => [(u, ps)]
  | e :: rest, u, ps => if e.1 = u then (u, ps) :: rest else e :: cacheSet rest u ps

/-- Truthiness of the Python value returned by `cache.get(user_id)`: `None` and the
empty list are falsy, a non-empty list is truthy. Every cache test in
src/controllers/post_service.py is written `if cached_posts:` and hence uses this. -/
def pyTruthy : Option (List Post) → Bool
  | some (_ :: _) => true
  | _ => false

/-- Combined mutable state of the service: the posts table and the module-level
post cache. -/
structure SysState where
  store : Store
  cache : List (Nat × List Post)
deriving DecidableEq, Repr

/-- Error taxonomy of the HTTP exceptions raised by the embedded code
(401, 413, 404 on list, 404 on delete). -/
inductive ApiError where
  | unauthorized
  | payload_too_large
  | not_found
  | not_found_or_forbidden
deriving DecidableEq, Repr

/-- Embeds `add_post_to_db_and_cache` (src/controllers/post_service.py, lines 13-49).
Rejects bodies over 1,000,000 bytes before touching anything; otherwise inserts the
new row (primary key = the auto-increment counter) and, when the owner's cached list
is truthy, appends the new post to it in place. -/
def add_post_to_db_and_cache (post_text : String) (user_id : Nat) (body_size : Nat)
    (s : SysState) : Except ApiError Post × SysState :=
  if body_size > 1000000 then
    (Except.error ApiError.payload_too_large, s)
  else
    let new_post : Post := ⟨s.store.nextId, post_text, user_id⟩
    let store2 : Store := ⟨s.store.posts ++ [new_post], s.store.nextId + 1⟩
    let cached := cacheGet s.cache user_id
    let cache2 :=
      if pyTruthy cached then cacheSet s.cache user_id (cached.getD [] ++ [new_post])
      else s.cache
    (Except.ok new_post, ⟨store2, cache2⟩)

/-- Embeds `get_user_posts_from_cache_or_db` (src/controllers/post_service.py,
lines 52-85). On a truthy cached list, return it without querying the database.
Otherwise query the rows with the given owner; an empty result raises 404 and caches
nothing, a non-empty result is stored in the cache and returned. The final `Bool`
records whether the database was queried. -/
def get_user_posts_from_cache_or_db (user_id : Nat) (s : SysState) :
    Except ApiError (List Post) × SysState × Bool :=
  let cached := cacheGet s.cache user_id
  if pyTruthy cached then
    (Except.ok (cached.getD []), s, false)
  else
    let posts := s.store.posts.filter (fun p => p.owner_id == user_id)
    if posts.isEmpty then
      (Except.error ApiError.not_found, s, true)
    else
      (Except.ok posts, ⟨s.store, cacheSet s.cache user_id posts⟩, true)

/-- Embeds `delete_post_from_db_and_cache` (src/controllers/post_service.py,
lines 88-125). Queries the row whose id AND owner both match; if none, raises 404
(conflating missing and foreign posts) with nothing changed. Otherwise deletes the
row and, when the owner's cached list is truthy, reassigns the entry to the cached
list with the deleted post filtered out. -/
def delete_post_from_db_and_cache (post_id : Nat) (user_id : Nat) (s : SysState) :
    Except ApiError Unit × SysState :=
  match (s.store.posts.filter (fun p => p.id == post_id && p.owner_id == user_id)).head? with
  | none => (Except.error ApiError.not_found_or_forbidden, s)
  | some post =>
    let store2 : Store := ⟨s.store.posts.filter (fun p => p.id != post.id), s.store.nextId⟩
    let cached := cacheGet s.cache user_id
    let cache2 :=
      if pyTruthy cached then
        cacheSet s.cache user_id ((cached.getD []).filter (fun q => q.id != post_id))
      else s.cache
    (Except.ok (), ⟨store2, cache2⟩)

/-- Shared signing secret `SECRET_KEY` of src/controllers/auth.py. -/
def SECRET_KEY : String := "your_secret_key"

/-- Default token lifetime `ACCESS_TOKEN_EXPIRE_MINUTES` of src/controllers/auth.py. -/
def ACCESS_TOKEN_EXPIRE_MINUTES : Nat := 30

/-- Modelled from the spec: the JWT blobs produced by the external PyJWT library used
in src/controllers/auth.py. A token is either a structurally well-formed signed blob
carrying the payload fields `sub` and `exp` (epoch seconds) together with the key it
was signed with, or a malformed blob (spec section 6: payload fields `sub`, `exp`;
section 4.1: a token is an opaque signed tamper-evident string). -/
inductive Token where
  | signed (sub : Nat) (exp : Nat) (key : String)
  | malformed
deriving DecidableEq, Repr

/-- Modelled from the spec: `jwt.encode(payload, key, HS256)` of the external PyJWT
library — signs the payload with the given key. -/
def jwt_encode (sub : Nat) (exp : Nat) (key : String) : Token :=
  Token.signed sub exp key

/-- Modelled from the spec: `jwt.decode(token, key, [HS256])` of the external PyJWT
library. It returns the payload when the blob is well-formed, the signature verifies
under `key`, and the `exp` claim has not passed at time `now`; any of the three
failures raises a `PyJWTError` (returned here as `none`, the uniform failure of
spec section 4.1). The expiry check fails when `exp ≤ now`. -/
def jwt_decode (t : Token) (key : String) (now : Nat) : Option (Nat × Nat) :=
  match t with
  | Token.malformed => none
  | Token.signed sub exp k =>
    if k = key then
      if exp ≤ now then none else some (sub, exp)
    else none

/-- Embeds `create_access_token` (src/controllers/auth.py, lines 43-60): signs the
payload `{sub, exp = now + (expires_delta or 30 minutes)}` with `SECRET_KEY`. Times
are in epoch seconds. -/
def create_access_token (sub : Nat) (now : Nat) (expires_delta : Option Nat) : Token :=
  jwt_encode sub (now + expires_delta.getD (ACCESS_TOKEN_EXPIRE_MINUTES * 60)) SECRET_KEY

/-- Embeds `decode_access_token` (src/controllers/auth.py, lines 92-109): attempts to
decode under `SECRET_KEY` and maps every `PyJWTError` to `None`. -/
def decode_access_token (t : Token) (now : Nat) : Option (Nat × Nat) :=
  jwt_decode t SECRET_KEY now

/-- Embeds `get_current_user` (src/controllers/auth.py, lines 21-40): a `None`
payload becomes the single HTTP 401 outcome, otherwise the payload is returned. -/
def get_current_user (t : Token) (now : Nat) : Except ApiError (Nat × Nat) :=
  match decode_access_token t now with
  | none => Except.error ApiError.unauthorized
  | some payload => Except.ok payload

/-- Embeds the router `add_post` (src/routers/posts.py, lines 14-45): authenticate,
take the subject as the owner id, delegate to the service, return the new post id. -/
def add_post (t : Token) (now : Nat) (post_text : String) (body_size : Nat)
    (s : SysState) : Except ApiError Nat × SysState :=
  match get_current_user t now with
  | Except.error e => (Except.error e, s)
  | Except.ok payload =>
    match add_post_to_db_and_cache post_text payload.1 body_size s with
    | (Except.error e, s2) => (Except.error e, s2)
    | (Except.ok new_post, s2) => (Except.ok new_post.id, s2)

/-- Embeds the router `get_posts` (src/routers/posts.py, lines 48-75): authenticate,
take the subject as the owner id, delegate to the service. -/
def get_posts (t : Token) (now : Nat) (s : SysState) :
    Except ApiError (List Post) × SysState × Bool :=
  match get_current_user t now with
  | Except.error e => (Except.error e, s, false)
  | Except.ok payload => get_user_posts_from_cache_or_db payload.1 s

/-- Embeds the router `delete_post` (src/routers/posts.py, lines 78-107):
authenticate, take the subject as the owner id, delegate to the service. -/
def delete_post (post_id : Nat) (t : Token) (now : Nat) (s : SysState) :
    Except ApiError Unit × SysState :=
  match get_current_user t now with
  | Except.error e => (Except.error e, s)
  | Except.ok payload => delete_post_from_db_and_cache post_id payload.1 s

/-- States reachable from the empty service (fresh tables, cold cache) by any
sequence of the three post operations, for any authenticated subject. Failed
operations leave the state as returned, so every outcome is covered. -/
inductive Reachable : SysState → Prop where
  | empty : Reachable ⟨⟨[], 0⟩, []⟩
  | addPost {s : SysState} (post_text : String) (user_id body_size : Nat) :
      Reachable s → Reachable (add_post_to_db_and_cache post_text user_id body_size s).2
  | listPosts {s : SysState} (user_id : Nat) :
      Reachable s → Reachable (get_user_posts_from_cache_or_db user_id s).2.1
  | deletePost {s : SysState} (post_id user_id : Nat) :
      Reachable s → Reachable (delete_post_from_db_and_cache post_id user_id s).2

/-! Helper lemmas: cache association list, truthiness, and characterization
equations for the three service operations. -/

theorem cacheGet_cacheSet_self (c : List (Nat × List Post)) (u : Nat) (ps : List Post) :
    cacheGet (cacheSet c u ps) u = some ps := by
  induction c with
  | nil => simp [cacheSet, cacheGet]
  | cons e rest ih =>
    by_cases h : e.1 = u
    · simp [cacheSet, cacheGet, h]
    · simp [cacheSet, cacheGet, h, ih]

theorem cacheGet_cacheSet_ne (c : List (Nat × List Post)) (u v : Nat) (ps : List Post)
    (h : v ≠ u) : cacheGet (cacheSet c u ps) v = cacheGet c v := by
  induction c with
  | nil =>
    simp only [cacheSet, cacheGet]
    rw [if_neg (by omega)]
  | cons e rest ih =>
    by_cases he : e.1 = u
    · simp only [cacheSet, if_pos he, cacheGet, he]
      rw [if_neg (by omega), if_neg (by omega)]
    · simp only [cacheSet, if_neg he, cacheGet, ih]

theorem pyTruthy_some_iff (l : List Post) : pyTruthy (some l) = true ↔ l ≠ [] := by
  cases l <;> simp [pyTruthy]

theorem pyTruthy_eq_false_iff (o : Option (List Post)) :
    pyTruthy o = false ↔ o = none ∨ o = some [] := by
  cases o with
  | none => simp [pyTruthy]
  | some l => cases l <;> simp [pyTruthy]

theorem addPost_too_large (post_text : String) (user_id body_size : Nat) (s : SysState)
    (hbs : 1000000 < body_size) :
    add_post_to_db_and_cache post_text user_id body_size s =
      (Except.error ApiError.payload_too_large, s) := by
  unfold add_post_to_db_and_cache
  rw [if_pos hbs]

theorem addPost_ok (post_text : String) (user_id body_size : Nat) (s : SysState)
    (hbs : body_size ≤ 1000000) :
    add_post_to_db_and_cache post_text user_id body_size s =
      (Except.ok ⟨s.store.nextId, post_text, user_id⟩,
       ⟨⟨s.store.posts ++ [⟨s.store.nextId, post_text, user_id⟩], s.store.nextId + 1⟩,
        if pyTruthy (cacheGet s.cache user_id) then
          cacheSet s.cache user_id
            ((cacheGet s.cache user_id).getD [] ++ [⟨s.store.nextId, post_text, user_id⟩])
        else s.cache⟩) := by
  unfold add_post_to_db_and_cache
  rw [if_neg (by omega)]

theorem listPosts_hit (u : Nat) (s : SysState) (p : Post) (ps : List Post)
    (ho : cacheGet s.cache u = some (p :: ps)) :
    get_user_posts_from_cache_or_db u s = (Except.ok (p :: ps), s, false) := by
  unfold get_user_posts_from_cache_or_db
  rw [ho]
  rfl

theorem listPosts_miss_empty (u : Nat) (s : SysState)
    (hf : pyTruthy (cacheGet s.cache u) = false)
    (he : s.store.posts.filter (fun p => p.owner_id == u) = []) :
    get_user_posts_from_cache_or_db u s = (Except.error ApiError.not_found, s, true) := by
  unfold get_user_posts_from_cache_or_db
  rcases (pyTruthy_eq_false_iff _).mp hf with ho | ho <;>
    · rw [ho]
      simp [pyTruthy, he]

theorem listPosts_miss_nonempty (u : Nat) (s : SysState)
    (hf : pyTruthy (cacheGet s.cache u) = false)
    (hne : s.store.posts.filter (fun p => p.owner_id == u) ≠ []) :
    get_user_posts_from_cache_or_db u s =
      (Except.ok (s.store.posts.filter (fun p => p.owner_id == u)),
       ⟨s.store, cacheSet s.cache u (s.store.posts.filter (fun p => p.owner_id == u))⟩,
       true) := by
  unfold get_user_posts_from_cache_or_db
  rcases (pyTruthy_eq_false_iff _).mp hf with ho | ho <;>
    · rw [ho]
      simp [pyTruthy, List.isEmpty_iff, hne]

theorem deletePost_miss (post_id user_id : Nat) (s : SysState)
    (hh : (s.store.posts.filter (fun p => p.id == post_id && p.owner_id == user_id)).head?
      = none) :
    delete_post_from_db_and_cache post_id user_id s =
      (Except.error ApiError.not_found_or_forbidden, s) := by
  unfold delete_post_from_db_and_cache
  rw [hh]

theorem deletePost_found (post_id user_id : Nat) (s : SysState) (post : Post)
    (hh : (s.store.posts.filter (fun p => p.id == post_id && p.owner_id == user_id)).head?
      = some post) :
    delete_post_from_db_and_cache post_id user_id s =
      (Except.ok (),
       ⟨⟨s.store.posts.filter (fun p => p.id != post.id), s.store.nextId⟩,
        if pyTruthy (cacheGet s.cache user_id) then
          cacheSet s.cache user_id
            (((cacheGet s.cache user_id).getD []).filter (fun q => q.id != post_id))
        else s.cache⟩) := by
  unfold delete_post_from_db_and_cache
  rw [hh]

/-! Concrete scenario states, reachable from the empty service. -/

/-- Token for subject 1 issued at time 0 with a one-hour lifetime. -/
def tokW : Token := create_access_token 1 0 (some 3600)

/-- State after subject 1 created one post and listed it: one stored post and a warm
cache entry for owner 1. -/
def sWarm : SysState :=
  ⟨⟨[⟨0, "a", 1⟩], 1⟩, [(1, [⟨0, "a", 1⟩])]⟩

/-- State after subject 1 created one post, listed it (warming the cache), and then
deleted it: empty table, but the cache holds a present entry with the empty list. -/
def stateEmptyEntry : SysState := ⟨⟨[], 1⟩, [(1, [])]⟩

theorem reachable_sWarm : Reachable sWarm := by
  have h0 : Reachable (⟨⟨[], 0⟩, []⟩ : SysState) := Reachable.empty
  have h1 := Reachable.addPost ("a") 1 1 h0
  have h2 := Reachable.listPosts 1 h1
  exact h2

theorem reachable_stateEmptyEntry : Reachable stateEmptyEntry := by
  have h3 := Reachable.deletePost 0 1 reachable_sWarm
  exact h3

/-! Ownership invariant of the cache: every present entry for owner u holds only
posts whose owner_id is u. -/

/-- Cache well-formedness: each present entry holds only posts of its key owner. -/
def cacheOwnersOk (c : List (Nat × List Post)) : Prop :=
  ∀ u ps, cacheGet c u = some ps → ∀ p ∈ ps, p.owner_id = u

theorem cacheOwnersOk_set (c : List (Nat × List Post)) (u : Nat) (ps : List Post)
    (hc : cacheOwnersOk c) (hps : ∀ p ∈ ps, p.owner_id = u) :
    cacheOwnersOk (cacheSet c u ps) := by
  intro v qs hget q hq
  by_cases hv : v = u
  · subst hv
    rw [cacheGet_cacheSet_self] at hget
    cases hget
    exact hps q hq
  · rw [cacheGet_cacheSet_ne c u v ps hv] at hget
    exact hc v qs hget q hq

theorem cacheOwnersOk_addPost (post_text : String) (user_id body_size : Nat)
    (s : SysState) (hc : cacheOwnersOk s.cache) :
    cacheOwnersOk (add_post_to_db_and_cache post_text user_id body_size s).2.cache := by
  by_cases hb : 1000000 < body_size
  · rw [addPost_too_large _ _ _ _ hb]
    exact hc
  · rw [addPost_ok _ _ _ _ (by omega)]
    by_cases ht : pyTruthy (cacheGet s.cache user_id) = true
    · simp only [ht, if_true]
      apply cacheOwnersOk_set _ _ _ hc
      intro p hp
      rcases List.mem_append.mp hp with hmem | hmem
      · rcases ho : cacheGet s.cache user_id with _ | l
        · rw [ho] at hmem
          simp at hmem
        · exact hc user_id l ho p (by rw [ho] at hmem; simpa using hmem)
      · rw [List.mem_singleton] at hmem
        subst hmem
        rfl
    · simp only [Bool.not_eq_true] at ht
      simp only [ht, Bool.false_eq_true, if_false]
      exact hc

theorem cacheOwnersOk_listPosts (user_id : Nat) (s : SysState) (hc : cacheOwnersOk s.cache) :
    cacheOwnersOk (get_user_posts_from_cache_or_db user_id s).2.1.cache := by
  rcases ht : pyTruthy (cacheGet s.cache user_id) with _ | _
  · by_cases he : s.store.posts.filter (fun p => p.owner_id == user_id) = []
    · rw [listPosts_miss_empty _ _ ht he]
      exact hc
    · rw [listPosts_miss_nonempty _ _ ht he]
      apply cacheOwnersOk_set _ _ _ hc
      intro p hp
      simpa using List.of_mem_filter hp
  · rcases ho : cacheGet s.cache user_id with _ | l
    · rw [ho] at ht; simp [pyTruthy] at ht
    · cases l with
      | nil => rw [ho] at ht; simp [pyTruthy] at ht
      | cons q qs =>
        rw [listPosts_hit _ _ _ _ ho]
        exact hc

theorem cacheOwnersOk_deletePost (post_id user_id : Nat) (s : SysState)
    (hc : cacheOwnersOk s.cache) :
    cacheOwnersOk (delete_post_from_db_and_cache post_id user_id s).2.cache := by
  rcases hh : (s.store.posts.filter (fun p => p.id == post_id && p.owner_id == user_id)).head?
      with _ | post
  · rw [deletePost_miss _ _ _ hh]
    exact hc
  · rw [deletePost_found _ _ _ _ hh]
    by_cases ht : pyTruthy (cacheGet s.cache user_id) = true
    · simp only [ht, if_true]
      apply cacheOwnersOk_set _ _ _ hc
      intro p hp
      have hmem := List.mem_of_mem_filter hp
      rcases ho : cacheGet s.cache user_id with _ | l
      · rw [ho] at hmem
        simp at hmem
      · exact hc user_id l ho p (by rw [ho] at hmem; simpa using hmem)
    · simp only [Bool.not_eq_true] at ht
      simp only [ht, Bool.false_eq_true, if_false]
      exact hc

theorem reachable_cacheOwnersOk (s : SysState) (h : Reachable s) : cacheOwnersOk s.cache := by
  induction h with
  | empty => intro u ps hget; simp [cacheGet] at hget
  | addPost post_text user_id body_size hs ih => exact cacheOwnersOk_addPost _ _ _ _ ih
  | listPosts user_id hs ih => exact cacheOwnersOk_listPosts _ _ ih
  | deletePost post_id user_id hs ih => exact cacheOwnersOk_deletePost _ _ _ ih

/-- Posts returned by a successful list call all belong to the queried owner,
provided the cache satisfies the ownership invariant. -/
theorem get_user_posts_owned (s : SysState) (u : Nat) (ps : List Post)
    (hinv : cacheOwnersOk s.cache)
    (hok : (get_user_posts_from_cache_or_db u s).1 = Except.ok ps) :
    ∀ p ∈ ps, p.owner_id = u := by
  rcases ht : pyTruthy (cacheGet s.cache u) with _ | _
  · by_cases he : s.store.posts.filter (fun p => p.owner_id == u) = []
    · rw [listPosts_miss_empty _ _ ht he] at hok
      simp at hok
    · rw [listPosts_miss_nonempty _ _ ht he] at hok
      simp only [Except.ok.injEq] at hok
      subst hok
      intro p hp
      simpa using List.of_mem_filter hp
  · rcases ho : cacheGet s.cache u with _ | l
    · rw [ho] at ht; simp [pyTruthy] at ht
    · cases l with
      | nil => rw [ho] at ht; simp [pyTruthy] at ht
      | cons q qs =>
        rw [listPosts_hit _ _ _ _ ho] at hok
        simp only [Except.ok.injEq] at hok
        subst hok
        intro p hp
        exact hinv u (q :: qs) ho p hp

/-! Claim theorems. -/

/-- Claim C1 (counterexample): the claim quantifies over every owner whose cache
entry is present. In the reachable state `stateEmptyEntry` the entry of owner 1 is
present (holding the empty list, left behind by deleting the owner's last post).
addPost with a valid token and a one-byte body succeeds, yet the immediately
following listPosts is answered with a store read (final component `true`), not from
the cache — refuting "the listPosts call is served from the cache without reading
the store". -/
theorem C1_counterexample :
    Reachable stateEmptyEntry ∧
    (cacheGet stateEmptyEntry.cache 1).isSome = true ∧
    (add_post tokW 0 ("b") 1 stateEmptyEntry).1 = Except.ok 1 ∧
    (get_posts tokW 0 (add_post tokW 0 ("b") 1 stateEmptyEntry).2).2.2 = true :=
  ⟨reachable_stateEmptyEntry, rfl, rfl, rfl⟩

/-- Claim C1 (amended): for every owner whose cache entry is present and NON-EMPTY,
calling addPost with a valid token and a body within the size limit, immediately
followed by listPosts for the same owner, returns the cached sequence extended with
the newly created post (hence containing it), and the listPosts call is served from
the cache without reading the store. -/
theorem C1_warm_add_then_list (s : SysState) (tok : Token) (now u e bs : Nat)
    (text : String) (p : Post) (ps : List Post)
    (htok : get_current_user tok now = Except.ok (u, e))
    (hwarm : cacheGet s.cache u = some (p :: ps))
    (hbs : bs ≤ 1000000) :
    (add_post tok now text bs s).1 = Except.ok s.store.nextId ∧
    get_posts tok now (add_post tok now text bs s).2 =
      (Except.ok ((p :: ps) ++ [⟨s.store.nextId, text, u⟩]),
       (add_post tok now text bs s).2, false) ∧
    (⟨s.store.nextId, text, u⟩ : Post) ∈ (p :: ps) ++ [⟨s.store.nextId, text, u⟩] := by
  have hadd : add_post tok now text bs s =
      (Except.ok s.store.nextId,
       ⟨⟨s.store.posts ++ [⟨s.store.nextId, text, u⟩], s.store.nextId + 1⟩,
        cacheSet s.cache u ((p :: ps) ++ [⟨s.store.nextId, text, u⟩])⟩) := by
    simp only [add_post, htok, addPost_ok _ _ _ _ hbs, hwarm]
    rfl
  refine ⟨by rw [hadd], ?_, by simp⟩
  rw [hadd]
  have ho := cacheGet_cacheSet_self s.cache u ((p :: ps) ++ [⟨s.store.nextId, text, u⟩])
  rw [List.cons_append] at ho
  simp only [get_posts, htok]
  rw [listPosts_hit u _ p (ps ++ [⟨s.store.nextId, text, u⟩]) ho]
  simp

/-- Witness for C1: the amended theorem at the concrete warm state `sWarm`. -/
theorem C1_witness :
    get_current_user tokW 0 = Except.ok (1, 3600) ∧
    cacheGet sWarm.cache 1 = some [⟨0, "a", 1⟩] ∧
    ((add_post tokW 0 ("y") 5 sWarm).1 = Except.ok 1 ∧
     get_posts tokW 0 (add_post tokW 0 ("y") 5 sWarm).2 =
       (Except.ok [⟨0, "a", 1⟩, ⟨1, "y", 1⟩], (add_post tokW 0 ("y") 5 sWarm).2, false) ∧
     (⟨1, "y", 1⟩ : Post) ∈ [⟨0, "a", 1⟩, ⟨1, "y", 1⟩]) :=
  ⟨rfl, rfl,
   C1_warm_add_then_list sWarm tokW 0 1 3600 5 ("y") ⟨0, "a", 1⟩ [] rfl rfl (by omega)⟩

/-- Claim C2: for a user with no cache entry and zero stored posts, listPosts fails
with not_found, queries the store, changes nothing (in particular the empty result
is not cached), and the immediately repeated call again queries the store and fails
the same way. Since the state is returned unchanged, this extends to every
subsequent call. -/
theorem C2_zero_posts (s : SysState) (u : Nat)
    (hnone : cacheGet s.cache u = none)
    (hzero : s.store.posts.filter (fun p => p.owner_id == u) = []) :
    get_user_posts_from_cache_or_db u s = (Except.error ApiError.not_found, s, true) ∧
    get_user_posts_from_cache_or_db u (get_user_posts_from_cache_or_db u s).2.1 =
      (Except.error ApiError.not_found, s, true) := by
  have hf : pyTruthy (cacheGet s.cache u) = false := by rw [hnone]; rfl
  have h1 := listPosts_miss_empty u s hf hzero
  refine ⟨h1, ?_⟩
  rw [h1]
  exact h1

/-- Witness for C2: a fresh service and user 7, who owns nothing. -/
theorem C2_witness :
    cacheGet ([] : List (Nat × List Post)) 7 = none ∧
    List.filter (fun p => p.owner_id == 7) ([] : List Post) = [] ∧
    get_user_posts_from_cache_or_db 7 ⟨⟨[], 0⟩, []⟩ =
      (Except.error ApiError.not_found, ⟨⟨[], 0⟩, []⟩, true) ∧
    get_user_posts_from_cache_or_db 7 (get_user_posts_from_cache_or_db 7 ⟨⟨[], 0⟩, []⟩).2.1 =
      (Except.error ApiError.not_found, ⟨⟨[], 0⟩, []⟩, true) :=
  ⟨rfl, rfl, (C2_zero_posts ⟨⟨[], 0⟩, []⟩ 7 rfl rfl).1,
   (C2_zero_posts ⟨⟨[], 0⟩, []⟩ 7 rfl rfl).2⟩

/-- Claim C3 (counterexample): a reachable state (create a post, list it, delete it)
whose cache maps owner 1 to a PRESENT entry holding the empty sequence — refuting
"no cache entry maps an owner id to an empty sequence". -/
theorem C3_counterexample :
    Reachable stateEmptyEntry ∧ cacheGet stateEmptyEntry.cache 1 = some [] :=
  ⟨reachable_stateEmptyEntry, rfl⟩

/-- Claim C3 (amended): addPost and listPosts never create an empty cache entry (an
empty entry after either operation was already present before it); deletePost can
leave a present entry holding the empty sequence, but such an entry is
observationally absent: listPosts for that owner still queries the store, and
addPost does not touch the cache. -/
theorem C3_empty_entry_behavior (s : SysState) (u uid bs : Nat) (text : String) :
    (cacheGet (add_post_to_db_and_cache text uid bs s).2.cache u = some [] →
      cacheGet s.cache u = some []) ∧
    (cacheGet (get_user_posts_from_cache_or_db uid s).2.1.cache u = some [] →
      cacheGet s.cache u = some []) ∧
    (cacheGet s.cache u = some [] →
      (get_user_posts_from_cache_or_db u s).2.2 = true ∧
      (add_post_to_db_and_cache text u bs s).2.cache = s.cache) := by
  refine ⟨?_, ?_, ?_⟩
  · intro h
    by_cases hb : 1000000 < bs
    · rw [addPost_too_large _ _ _ _ hb] at h
      exact h
    · rw [addPost_ok _ _ _ _ (by omega)] at h
      by_cases ht : pyTruthy (cacheGet s.cache uid) = true
      · simp only [ht, if_true] at h
        by_cases hv : u = uid
        · subst hv
          rw [cacheGet_cacheSet_self] at h
          simp at h
        · rw [cacheGet_cacheSet_ne _ _ _ _ hv] at h
          exact h
      · simp only [Bool.not_eq_true] at ht
        simp only [ht, Bool.false_eq_true, if_false] at h
        exact h
  · intro h
    rcases ht : pyTruthy (cacheGet s.cache uid) with _ | _
    · by_cases he : s.store.posts.filter (fun p => p.owner_id == uid) = []
      · rw [listPosts_miss_empty _ _ ht he] at h
        exact h
      · rw [listPosts_miss_nonempty _ _ ht he] at h
        by_cases hv : u = uid
        · subst hv
          rw [cacheGet_cacheSet_self] at h
          simp only [Option.some.injEq] at h
          exact absurd h.symm (Ne.symm he)
        · rw [cacheGet_cacheSet_ne _ _ _ _ hv] at h
          exact h
    · rcases ho : cacheGet s.cache uid with _ | l
      · rw [ho] at ht; simp [pyTruthy] at ht
      · cases l with
        | nil => rw [ho] at ht; simp [pyTruthy] at ht
        | cons q qs =>
          rw [listPosts_hit _ _ _ _ ho] at h
          exact h
  · intro h
    have hf : pyTruthy (cacheGet s.cache u) = false := by rw [h]; rfl
    constructor
    · by_cases he : s.store.posts.filter (fun p => p.owner_id == u) = []
      · rw [listPosts_miss_empty _ _ hf he]
      · rw [listPosts_miss_nonempty _ _ hf he]
    · by_cases hb : 1000000 < bs
      · rw [addPost_too_large _ _ _ _ hb]
      · rw [addPost_ok _ _ _ _ (by omega)]
        simp [hf]

/-- Witness for C3 (amended): at the state with the empty entry for owner 1, the
empty entry was already there before an addPost, listPosts for owner 1 queries the
store, and addPost leaves the cache untouched. -/
theorem C3_witness :
    cacheGet stateEmptyEntry.cache 1 = some [] ∧
    ((get_user_posts_from_cache_or_db 1 stateEmptyEntry).2.2 = true ∧
     (add_post_to_db_and_cache ("b") 1 5 stateEmptyEntry).2.cache = stateEmptyEntry.cache) :=
  ⟨rfl, (C3_empty_entry_behavior stateEmptyEntry 1 1 5 ("b")).2.2 rfl⟩

/-- Claim C4: for an owner with no cache entry and at least one stored post (the
owner-filtered table is non-empty), listPosts queries the store, caches exactly that
result, and returns it; the immediately repeated call returns the same list from the
cache without querying the store. -/
theorem C4_cold_start (s : SysState) (u : Nat)
    (hnone : cacheGet s.cache u = none)
    (hne : s.store.posts.filter (fun p => p.owner_id == u) ≠ []) :
    get_user_posts_from_cache_or_db u s =
      (Except.ok (s.store.posts.filter (fun p => p.owner_id == u)),
       ⟨s.store, cacheSet s.cache u (s.store.posts.filter (fun p => p.owner_id == u))⟩,
       true) ∧
    get_user_posts_from_cache_or_db u
        ⟨s.store, cacheSet s.cache u (s.store.posts.filter (fun p => p.owner_id == u))⟩ =
      (Except.ok (s.store.posts.filter (fun p => p.owner_id == u)),
       ⟨s.store, cacheSet s.cache u (s.store.posts.filter (fun p => p.owner_id == u))⟩,
       false) := by
  have hf : pyTruthy (cacheGet s.cache u) = false := by rw [hnone]; rfl
  refine ⟨listPosts_miss_nonempty u s hf hne, ?_⟩
  obtain ⟨q, qs, hqs⟩ := List.exists_cons_of_ne_nil hne
  have ho : cacheGet
      (⟨s.store, cacheSet s.cache u (s.store.posts.filter (fun p => p.owner_id == u))⟩
        : SysState).cache u = some (q :: qs) := by
    show cacheGet (cacheSet s.cache u (s.store.posts.filter (fun p => p.owner_id == u))) u
      = some (q :: qs)
    rw [cacheGet_cacheSet_self, hqs]
  rw [listPosts_hit u _ q qs ho, hqs]

/-- Witness for C4: a store holding one post of owner 1 and a cold cache. -/
theorem C4_witness :
    cacheGet ([] : List (Nat × List Post)) 1 = none ∧
    get_user_posts_from_cache_or_db 1 ⟨⟨[⟨0, "a", 1⟩], 1⟩, []⟩ =
      (Except.ok [⟨0, "a", 1⟩], ⟨⟨[⟨0, "a", 1⟩], 1⟩, [(1, [⟨0, "a", 1⟩])]⟩, true) ∧
    get_user_posts_from_cache_or_db 1 ⟨⟨[⟨0, "a", 1⟩], 1⟩, [(1, [⟨0, "a", 1⟩])]⟩ =
      (Except.ok [⟨0, "a", 1⟩], ⟨⟨[⟨0, "a", 1⟩], 1⟩, [(1, [⟨0, "a", 1⟩])]⟩, false) :=
  ⟨rfl, (C4_cold_start ⟨⟨[⟨0, "a", 1⟩], 1⟩, []⟩ 1 rfl (by decide)).1,
   (C4_cold_start ⟨⟨[⟨0, "a", 1⟩], 1⟩, []⟩ 1 rfl (by decide)).2⟩

/-- Claim C5: deletePost by an authenticated subject a against a post id that no
post owned by a carries (the post is owned by someone else, or no post has that id)
fails with the single conflated not_found_or_forbidden outcome and leaves the whole
state — in particular the targeted post — unchanged. -/
theorem C5_delete_foreign (s : SysState) (tok : Token) (now a e post_id : Nat)
    (htok : get_current_user tok now = Except.ok (a, e))
    (hforeign : ∀ q ∈ s.store.posts, q.id = post_id → q.owner_id ≠ a) :
    delete_post post_id tok now s = (Except.error ApiError.not_found_or_forbidden, s) := by
  have hfil : s.store.posts.filter (fun p => p.id == post_id && p.owner_id == a) = [] := by
    rw [List.filter_eq_nil_iff]
    intro q hq
    simp only [Bool.and_eq_true, beq_iff_eq, not_and]
    intro h1 h2
    exact hforeign q hq h1 h2
  have hh : (s.store.posts.filter (fun p => p.id == post_id && p.owner_id == a)).head?
      = none := by rw [hfil]; rfl
  simp only [delete_post, htok]
  exact deletePost_miss post_id a s hh

/-- Witness for C5: subject 1 deleting post 0, which is owned by user 2; the state
is unchanged. -/
theorem C5_witness :
    get_current_user tokW 0 = Except.ok (1, 3600) ∧
    (⟨0, "h", 2⟩ : Post) ∈ ([⟨0, "h", 2⟩] : List Post) ∧
    delete_post 0 tokW 0 ⟨⟨[⟨0, "h", 2⟩], 1⟩, []⟩ =
      (Except.error ApiError.not_found_or_forbidden, ⟨⟨[⟨0, "h", 2⟩], 1⟩, []⟩) :=
  ⟨rfl, by simp, C5_delete_foreign ⟨⟨[⟨0, "h", 2⟩], 1⟩, []⟩ tokW 0 1 3600 0 rfl (by decide)⟩

/-- Claim C6: with a valid token, addPost fails with payload_too_large exactly when
the body size exceeds 1,000,000 bytes, and in that case the whole state is returned
unchanged (the failure happens before any write to the store or the cache); with a
body of at most 1,000,000 bytes it succeeds and returns the new post id. -/
theorem C6_size_limit (s : SysState) (tok : Token) (now u e bs : Nat) (text : String)
    (htok : get_current_user tok now = Except.ok (u, e)) :
    (1000000 < bs →
      add_post tok now text bs s = (Except.error ApiError.payload_too_large, s)) ∧
    (bs ≤ 1000000 → (add_post tok now text bs s).1 = Except.ok s.store.nextId) := by
  constructor
  · intro h
    simp only [add_post, htok, addPost_too_large _ _ _ _ h]
  · intro h
    simp only [add_post, htok, addPost_ok _ _ _ _ h]

/-- Witness for C6 at the spec's boundary: exactly 1,000,001 bytes fails with the
state unchanged, exactly 1,000,000 bytes succeeds. -/
theorem C6_witness :
    add_post tokW 0 ("hello") 1000001 sWarm =
      (Except.error ApiError.payload_too_large, sWarm) ∧
    (add_post tokW 0 ("hello") 1000000 sWarm).1 = Except.ok 1 :=
  ⟨(C6_size_limit sWarm tokW 0 1 3600 1000001 ("hello") rfl).1 (by omega),
   (C6_size_limit sWarm tokW 0 1 3600 1000000 ("hello") rfl).2 (by omega)⟩

/-- Claim C7: the three verification failure causes — wrong signing key (regardless
of expiry), malformed token structure, and passed expiry — each produce the one
identical unauthorized outcome, with no distinguishing detail in the returned value.
The three cases are quantified independently, so in particular a forged but
unexpired token is covered. -/
theorem C7_uniform_unauthorized (now : Nat) :
    (∀ sub exp2 k, k ≠ SECRET_KEY →
      get_current_user (Token.signed sub exp2 k) now = Except.error ApiError.unauthorized) ∧
    get_current_user Token.malformed now = Except.error ApiError.unauthorized ∧
    (∀ sub exp2, exp2 ≤ now →
      get_current_user (Token.signed sub exp2 SECRET_KEY) now =
        Except.error ApiError.unauthorized) := by
  refine ⟨?_, rfl, ?_⟩
  · intro sub exp2 k hk
    simp [get_current_user, decode_access_token, jwt_decode, hk]
  · intro sub exp2 hexp
    simp [get_current_user, decode_access_token, jwt_decode, hexp]

/-- Witness for C7: a forged token that is NOT expired (wrong key, exp 50 at time 9),
a malformed token, and an expired correctly-signed token (exp 5 at time 9) all yield
the same unauthorized outcome. -/
theorem C7_witness :
    ("x" : String) ≠ SECRET_KEY ∧
    get_current_user (Token.signed 1 50 ("x")) 9 = Except.error ApiError.unauthorized ∧
    get_current_user Token.malformed 9 = Except.error ApiError.unauthorized ∧
    (5 : Nat) ≤ 9 ∧
    get_current_user (Token.signed 1 5 SECRET_KEY) 9 = Except.error ApiError.unauthorized :=
  ⟨by decide,
   (C7_uniform_unauthorized 9).1 1 50 ("x") (by decide),
   (C7_uniform_unauthorized 9).2.1,
   by omega,
   (C7_uniform_unauthorized 9).2.2 1 5 (by omega)⟩

/-- Claim C8: verifying a token issued for subject s at time `issued` with positive
lifetime `ttl` yields s (with the expiry in the payload) at every time strictly
before `issued + ttl`, and yields the uniform invalid outcome at every time from
`issued + ttl` on. -/
theorem C8_round_trip (s ttl issued t : Nat) (httl : 0 < ttl) :
    (t < issued + ttl →
      get_current_user (create_access_token s issued (some ttl)) t =
        Except.ok (s, issued + ttl)) ∧
    (issued + ttl ≤ t →
      get_current_user (create_access_token s issued (some ttl)) t =
        Except.error ApiError.unauthorized) := by
  constructor
  · intro h
    have hn : ¬(issued + ttl ≤ t) := by omega
    simp [get_current_user, decode_access_token, create_access_token, jwt_encode,
      jwt_decode, hn]
  · intro h
    simp [get_current_user, decode_access_token, create_access_token, jwt_encode,
      jwt_decode, h]

/-- Witness for C8: a token for subject 4 issued at time 100 with a 60-second
lifetime verifies at time 120 and is invalid at time 160. -/
theorem C8_witness :
    (0 : Nat) < 60 ∧
    get_current_user (create_access_token 4 100 (some 60)) 120 = Except.ok (4, 160) ∧
    get_current_user (create_access_token 4 100 (some 60)) 160 =
      Except.error ApiError.unauthorized :=
  ⟨by omega, (C8_round_trip 4 60 100 120 (by omega)).1 (by omega),
   (C8_round_trip 4 60 100 160 (by omega)).2 (by omega)⟩

/-- Claim C9 (counterexample): in the reachable state `stateEmptyEntry` the cache
entry of owner 1 is PRESENT (holding the empty list); addPost for owner 1 succeeds
and creates post 1, yet the entry still holds the empty list afterwards — refuting
"the cache append appends the created post to the owner's cache entry whenever that
entry is present". -/
theorem C9_counterexample :
    Reachable stateEmptyEntry ∧
    (cacheGet stateEmptyEntry.cache 1).isSome = true ∧
    (add_post_to_db_and_cache ("b") 1 5 stateEmptyEntry).1 = Except.ok ⟨1, "b", 1⟩ ∧
    cacheGet (add_post_to_db_and_cache ("b") 1 5 stateEmptyEntry).2.cache 1 = some [] :=
  ⟨reachable_stateEmptyEntry, rfl, rfl, rfl⟩

/-- Claim C9 (amended): the cache patch of addPost appends the created post to the
owner's entry whenever that entry is present and NON-EMPTY; when the entry is absent
or holds the empty list, the cache is left completely unchanged (in particular no
entry is ever created); and entries of other owners are unchanged in every case. -/
theorem C9_append_semantics (s : SysState) (uid bs : Nat) (text : String)
    (p : Post) (ps : List Post) (hbs : bs ≤ 1000000) :
    (cacheGet s.cache uid = some (p :: ps) →
      (add_post_to_db_and_cache text uid bs s).2.cache =
        cacheSet s.cache uid ((p :: ps) ++ [⟨s.store.nextId, text, uid⟩])) ∧
    (pyTruthy (cacheGet s.cache uid) = false →
      (add_post_to_db_and_cache text uid bs s).2.cache = s.cache) ∧
    (∀ v, v ≠ uid →
      cacheGet (add_post_to_db_and_cache text uid bs s).2.cache v = cacheGet s.cache v) := by
  rw [addPost_ok _ _ _ _ hbs]
  refine ⟨?_, ?_, ?_⟩
  · intro h
    rw [h]
    rfl
  · intro h
    simp [h]
  · intro v hv
    by_cases ht : pyTruthy (cacheGet s.cache uid) = true
    · simp only [ht, if_true]
      exact cacheGet_cacheSet_ne _ _ _ _ hv
    · simp only [Bool.not_eq_true] at ht
      simp [ht]

/-- Witness for C9 (amended): at the warm state `sWarm`, addPost appends to owner
1's non-empty entry and leaves owner 2 (absent) unchanged. -/
theorem C9_witness :
    cacheGet sWarm.cache 1 = some [⟨0, "a", 1⟩] ∧
    (add_post_to_db_and_cache ("z") 1 3 sWarm).2.cache =
      cacheSet sWarm.cache 1 [⟨0, "a", 1⟩, ⟨1, "z", 1⟩] ∧
    cacheGet (add_post_to_db_and_cache ("z") 1 3 sWarm).2.cache 2 = cacheGet sWarm.cache 2 :=
  ⟨rfl, (C9_append_semantics sWarm 1 3 ("z") ⟨0, "a", 1⟩ [] (by omega)).1 rfl,
   (C9_append_semantics sWarm 1 3 ("z") ⟨0, "a", 1⟩ [] (by omega)).2.2 2 (by omega)⟩

/-- Claim C10: in every reachable state, every post returned by a successful
listPosts call carries an owner_id equal to the subject of the presented token: the
store query filters by that subject and every cached entry consulted satisfies the
ownership invariant. -/
theorem C10_owner_scoped (s : SysState) (tok : Token) (now u e : Nat) (ps : List Post)
    (hreach : Reachable s)
    (htok : get_current_user tok now = Except.ok (u, e))
    (hok : (get_posts tok now s).1 = Except.ok ps) :
    ∀ p ∈ ps, p.owner_id = u := by
  have hinv := reachable_cacheOwnersOk s hreach
  apply get_user_posts_owned s u ps hinv
  simpa [get_posts, htok] using hok

/-- Witness for C10: at the reachable warm state, listPosts for subject 1 returns
the single post, whose owner_id is 1. -/
theorem C10_witness :
    Reachable sWarm ∧
    get_current_user tokW 0 = Except.ok (1, 3600) ∧
    (get_posts tokW 0 sWarm).1 = Except.ok [⟨0, "a", 1⟩] ∧
    (⟨0, "a", 1⟩ : Post).owner_id = 1 :=
  ⟨reachable_sWarm, rfl, rfl,
   C10_owner_scoped sWarm tokW 0 1 3600 [⟨0, "a", 1⟩] reachable_sWarm rfl rfl
     ⟨0, "a", 1⟩ (by simp)⟩
